import Mathlib

/-!
Verification development for a personal portfolio/blog site.

The code under study consists of:
* a constants module (`SITE`, `HOME` (defined twice), `BLOG`, `PROJECTS`,
  `SOCIALS`, `baseUrl`) — site-wide configuration data;
* a font-awesome adapter module that imports the icon stylesheet manually and
  sets `config.autoAddCss = false` at import time;
* a `Header` component that renders the site title (linking home), a CV link,
  a blog link and a search-trigger button with `aria-label="Search"`.

Markup output is modelled as a stream of HTML tokens (`Node`), program
execution as a list of `Step`s folded over a `ProgState`.
-/

/-- The `Site` shape from the project's type declarations, as used by the
constants module: title, description, email, and two homepage counts. -/
structure Site where
  TITLE : String
  DESCRIPTION : String
  EMAIL : String
  NUM_POSTS_ON_HOMEPAGE : Nat
  NUM_PROJECTS_ON_HOMEPAGE : Nat
deriving Repr, DecidableEq

/-- The `Metadata` shape: per-page title and description. -/
structure Metadata where
  TITLE : String
  DESCRIPTION : String
deriving Repr, DecidableEq

/-- The icon references imported from the font-awesome icon packages. -/
inductive IconRef where
  | faGithub
  | faLinkedin
  | faMagnifyingGlass
deriving Repr, DecidableEq

/-- One entry of the `Socials` list: display name, target URL, icon
reference, and the flag marking the last link of a visually grouped
cluster (`end` in the source). -/
structure SocialLink where
  NAME : String
  HREF : String
  icon : IconRef
  «end» : Bool
deriving Repr, DecidableEq

/-- `export const baseUrl = "https://simeonat.github.io";` -/
def baseUrl : String := "https://simeonat.github.io"

/-- `export const SITE: Site = { ... };` from the constants module. -/
def SITE : Site :=
  { TITLE := "Simeon Tran"
    DESCRIPTION := "Computer Science Graduate Student"
    EMAIL := ""
    NUM_POSTS_ON_HOMEPAGE := 5
    NUM_PROJECTS_ON_HOMEPAGE := 0 }

/-- The first `export const HOME: Metadata = { ... };` in the source. -/
def HOME_first : Metadata :=
  { TITLE := "Home"
    DESCRIPTION := "My personal website and blog." }

/-- The second `export const HOME: Metadata = { ... };` in the source,
textually after the first. -/
def HOME_second : Metadata :=
  { TITLE := "Home"
    DESCRIPTION := "Astro Micro is an accessible theme for Astro." }

/-- The binding of `HOME` observed after the module body has been evaluated
top to bottom: the later definition wins. -/
def HOME : Metadata := HOME_second

/-- `export const BLOG: Metadata = { ... };` -/
def BLOG : Metadata :=
  { TITLE := "Blog"
    DESCRIPTION := "Blog posts on research projects that I am currently working on." }

/-- `export const PROJECTS: Metadata = { ... };` -/
def PROJECTS : Metadata :=
  { TITLE := "Projects"
    DESCRIPTION := "Projects that I am proud of." }

/-- `export const SOCIALS: Socials = [ ... ];` — the ordered social-link
list: GitHub first (not end of group), LinkedIn second (end of group). -/
def SOCIALS : List SocialLink :=
  [ { NAME := "GitHub"
      HREF := "https://github.com/simeonat"
      icon := IconRef.faGithub
      «end» := false }
  , { NAME := "LinkedIn"
      HREF := "https://www.linkedin.com/in/simeon-tran/"
      icon := IconRef.faLinkedin
      «end» := true } ]

/-- Keys of the `Metadata`-typed constants declared by the constants module,
used to model the module body as an evaluation sequence. -/
inductive ConstKey where
  | home
  | blog
  | projects
deriving Repr, DecidableEq

/-- The `Metadata` definitions of the constants module in source order.
`HOME` appears twice: once at each of its two textual definitions. -/
def constsModuleDefs : List (ConstKey × Metadata) :=
  [ (ConstKey.home, HOME_first)
  , (ConstKey.home, HOME_second)
  , (ConstKey.blog, BLOG)
  , (ConstKey.projects, PROJECTS) ]

/-- Evaluate a module body as a top-to-bottom sequence of bindings: a later
binding of the same key overwrites an earlier one. -/
def evalModule (defs : List (ConstKey × Metadata)) : ConstKey → Option Metadata :=
  defs.foldl (fun env kv => fun k => if k = kv.1 then some kv.2 else env k)
    (fun _ => none)

/-- One HTML output token: text content, an opening tag with its attribute
list, or a closing tag.  Rendered markup is a stream of these tokens. -/
inductive Node where
  | text (s : String)
  | openTag (tag : String) (attrs : List (String × String))
  | closeTag (tag : String)
deriving Repr, DecidableEq

/-- Serialize one token to its HTML byte string. -/
def Node.toHtml : Node → String
  | Node.text s => s
  | Node.openTag tag attrs =>
      "<" ++ tag
        ++ String.join (attrs.map (fun a => " " ++ a.1 ++ "=\x22" ++ a.2 ++ "\x22"))
        ++ ">"
  | Node.closeTag tag => "</" ++ tag ++ ">"

/-- Serialize a token stream to its HTML byte string. -/
def nodesToHtml (ns : List Node) : String :=
  String.join (ns.map Node.toHtml)

/-- The icon name placed on the rendered `<svg>` element, as font-awesome
derives it from the icon definition. -/
def iconName : IconRef → String
  | IconRef.faGithub => "github"
  | IconRef.faLinkedin => "linkedin"
  | IconRef.faMagnifyingGlass => "magnifying-glass"

/-- `<FontAwesomeIcon icon={...} />`: renders an inline `<svg>` element
carrying the icon name. -/
def renderIcon (i : IconRef) : List Node :=
  [Node.openTag "svg" [("data-icon", iconName i)], Node.closeTag "svg"]

/-- The `Link` component: an anchor with the given target wrapping its
children. -/
def renderLink (href : String) (children : List Node) : List Node :=
  Node.openTag "a" [("href", href)] :: children ++ [Node.closeTag "a"]

/-- The full configuration bundle exposed by the constants module, as
consumed by the rendering components. -/
structure SiteConfig where
  site : Site
  home : Metadata
  blog : Metadata
  projects : Metadata
  socials : List SocialLink
deriving Repr, DecidableEq

/-- The configuration actually authored in the constants module. -/
def siteConfig : SiteConfig :=
  { site := SITE
    home := HOME
    blog := BLOG
    projects := PROJECTS
    socials := SOCIALS }

/-- The `class` attribute of the search button in `Header.astro`. -/
def searchButtonClass : String :=
  "flex items-center rounded border border-black/15 bg-neutral-100 px-2 py-1 text-lg transition-colors duration-300 ease-in-out hover:bg-black/5 hover:text-black focus-visible:bg-black/5 focus-visible:text-black dark:border-white/20 dark:bg-neutral-900 dark:hover:bg-white/5 dark:hover:text-white dark:focus-visible:bg-white/5 dark:focus-visible:text-white mr-3 ml-3"

/-- The `Header.astro` template, token by token: a `<header>` wrapping a
container `<div>`, the site title in a `Link` to `/`, then a `<nav>` with
the CV link, a separator, the blog link, a separator, and the search
button (`id="magnifying-glass"`, `aria-label="Search"`) holding the
magnifying-glass icon and the visible text `Search`.  The `Container`
component (outside this repository) is modelled as a plain wrapper. -/
def renderHeader (cfg : SiteConfig) : List Node :=
  [Node.openTag "header" []]
  ++ [Node.openTag "div" [("class", "flex flex-wrap justify-between gap-y-2")]]
  ++ renderLink "/"
       [ Node.openTag "div" [("class", "font-semibold text-xl")]
       , Node.text cfg.site.TITLE
       , Node.closeTag "div" ]
  ++ [Node.openTag "nav" [("class", "flex items-center gap-1 text-sm")]]
  ++ renderLink "/files/Simeon-Tran-CV.pdf" [Node.text "CV"]
  ++ [Node.openTag "span" [], Node.text "/", Node.closeTag "span"]
  ++ renderLink "/blog" [Node.text "Blog"]
  ++ [Node.openTag "span" [], Node.text "/", Node.closeTag "span"]
  ++ [Node.openTag "button"
        [ ("id", "magnifying-glass")
        , ("aria-label", "Search")
        , ("class", searchButtonClass) ]]
  ++ [Node.openTag "div" [("class", "mr-2")]]
  ++ renderIcon IconRef.faMagnifyingGlass
  ++ [Node.closeTag "div"]
  ++ [Node.text "Search", Node.closeTag "button"]
  ++ [Node.closeTag "nav", Node.closeTag "div", Node.closeTag "header"]

/-- The state of the third-party icon library's global `config` object:
`autoAddCss` defaults to `true`; the adapter module also imports the
stylesheet manually, tracked by `cssManuallyImported`. -/
structure IconRenderConfig where
  autoAddCss : Bool
  cssManuallyImported : Bool
deriving Repr, DecidableEq

/-- The icon library's `config` before any module of this repository runs:
automatic stylesheet injection is on, nothing imported yet. -/
def iconConfigAtStart : IconRenderConfig :=
  { autoAddCss := true, cssManuallyImported := false }

/-- One step of the program's execution: the two import-time side effects of
the font-awesome adapter module, an icon render call, or a Header render. -/
inductive Step where
  | importStylesheet
  | disableAutoAddCss
  | renderIconCall (i : IconRef)
  | renderHeaderCall
deriving Repr, DecidableEq

/-- Whole-program state: the configuration constants, the icon library's
global config, and the markup emitted so far. -/
structure ProgState where
  consts : SiteConfig
  iconConfig : IconRenderConfig
  output : List Node
deriving Repr, DecidableEq

/-- State at process start: constants as authored, icon config at its
library default, no output. -/
def startState : ProgState :=
  { consts := siteConfig
    iconConfig := iconConfigAtStart
    output := [] }

/-- Effect of one step on the program state.  Only `disableAutoAddCss`
(the adapter's `config.autoAddCss = false`) and `importStylesheet` write
any state besides the output stream; render steps append markup. -/
def stepRun (s : ProgState) : Step → ProgState
  | Step.importStylesheet =>
      { s with iconConfig := { s.iconConfig with cssManuallyImported := true } }
  | Step.disableAutoAddCss =>
      { s with iconConfig := { s.iconConfig with autoAddCss := false } }
  | Step.renderIconCall i =>
      { s with output := s.output ++ renderIcon i }
  | Step.renderHeaderCall =>
      { s with output := s.output ++ renderHeader s.consts }

/-- Run a list of steps from a state. -/
def run (s : ProgState) (steps : List Step) : ProgState :=
  steps.foldl stepRun s

/-- The import-time body of the font-awesome adapter module, in source
order: import the stylesheet, then set `config.autoAddCss = false`. -/
def fontAwesomeResizeSteps : List Step :=
  [Step.importStylesheet, Step.disableAutoAddCss]

/-- The execution sequence of a page build that renders the Header:
`Header.astro`'s frontmatter first imports the adapter module (running its
two side-effect steps), then the template is rendered, during which the one
`FontAwesomeIcon` call renders the magnifying-glass icon. -/
def headerBuildSteps : List Step :=
  fontAwesomeResizeSteps
    ++ [Step.renderHeaderCall, Step.renderIconCall IconRef.faMagnifyingGlass]

/-- Does a step render an icon? -/
def Step.isRenderIcon : Step → Bool
  | Step.renderIconCall _ => true
  | _ => false

/-- A social-link entry as authored, before validation: every field may be
absent. -/
structure RawSocialEntry where
  NAME : Option String
  HREF : Option String
  icon : Option IconRef
  «end» : Option Bool
deriving Repr, DecidableEq

/-- Is a raw entry well formed: every required display field present, and
the target URL non-empty? -/
def RawSocialEntry.wellFormed (r : RawSocialEntry) : Bool :=
  r.NAME.isSome && (match r.HREF with | some h => !h.isEmpty | none => false)
    && r.icon.isSome && r.«end».isSome

/-- Modelled from the spec: the `Socials` element type and its required
fields live in the project's type declarations (`@types`), which are not
among the source files here; the spec requires that a malformed or missing
social-link entry (e.g. an absent `href`) be rejected when the
configuration is constructed.  Construction of one link fails unless every
required field is present and the URL is non-empty. -/
def mkSocialLink (r : RawSocialEntry) : Option SocialLink :=
  match r.NAME, r.HREF, r.icon, r.«end» with
  | some n, some h, some i, some e =>
      if h.isEmpty then none else some { NAME := n, HREF := h, icon := i, «end» := e }
  | _, _, _, _ => none

/-- Modelled from the spec: constructing the configured social-link list
fails as soon as any entry fails, so the system refuses to start rather
than rendering a broken link. -/
def mkSocials : List RawSocialEntry → Option (List SocialLink)
  | [] => some []
  | r :: rs =>
      match mkSocialLink r, mkSocials rs with
      | some l, some ls => some (l :: ls)
      | _, _ => none

/-- Render one social link: an anchor targeting the entry's URL, wrapping
its icon and display name. -/
def renderSocialLink (l : SocialLink) : List Node :=
  Node.openTag "a" [("href", l.HREF)]
    :: renderIcon l.icon ++ [Node.text l.NAME, Node.closeTag "a"]

/-- Modelled from the spec: the navigation-rendering component that
consumes the social-link list is not among the source files here; per the
spec the list is "an ordered sequence (order is display order,
significant)" consumed by navigation-rendering components, so the renderer
emits each entry in sequence. -/
def renderSocials (links : List SocialLink) : List Node :=
  (links.map renderSocialLink).flatten

/-- The target URLs of the anchors of a token stream, in stream order. -/
def anchorHrefs (ns : List Node) : List String :=
  ns.filterMap fun n =>
    match n with
    | Node.openTag "a" attrs =>
        (attrs.find? fun a => a.1 == "href").map fun a => a.2
    | _ => none

/-- The text tokens of a token stream, in stream order. -/
def textContents (ns : List Node) : List String :=
  ns.filterMap fun n =>
    match n with
    | Node.text s => some s
    | _ => none

/-- Does a token stream contain the Header's search trigger: a `<button>`
with `id="magnifying-glass"` carrying `aria-label="Search"`? -/
def hasSearchButton (ns : List Node) : Bool :=
  ns.any fun n =>
    match n with
    | Node.openTag "button" attrs =>
        attrs.contains ("id", "magnifying-glass")
          && attrs.contains ("aria-label", "Search")
    | _ => false

/-- Does a token stream contain an anchor whose target is `target`? -/
def hasLinkTo (ns : List Node) (target : String) : Bool :=
  ns.any fun n =>
    match n with
    | Node.openTag "a" attrs => attrs.contains ("href", target)
    | _ => false

/-- A raw social-link entry missing its `href`, otherwise like the authored
GitHub entry. -/
def badSocialEntry : RawSocialEntry :=
  { NAME := some "GitHub"
    HREF := none
    icon := some IconRef.faGithub
    «end» := some false }

/-! ## Helper lemmas -/

theorem stepRun_consts (s : ProgState) (st : Step) :
    (stepRun s st).consts = s.consts := by
  cases st <;> rfl

theorem run_consts (steps : List Step) (s : ProgState) :
    (run s steps).consts = s.consts := by
  induction steps generalizing s with
  | nil => rfl
  | cons st rest ih =>
    calc (run (stepRun s st) rest).consts
        = (stepRun s st).consts := ih (stepRun s st)
      _ = s.consts := stepRun_consts s st

theorem anchorHrefs_append (xs ys : List Node) :
    anchorHrefs (xs ++ ys) = anchorHrefs xs ++ anchorHrefs ys :=
  List.filterMap_append xs ys _

theorem textContents_append (xs ys : List Node) :
    textContents (xs ++ ys) = textContents xs ++ textContents ys :=
  List.filterMap_append xs ys _

theorem anchorHrefs_renderSocialLink (l : SocialLink) :
    anchorHrefs (renderSocialLink l) = [l.HREF] := rfl

theorem textContents_renderSocialLink (l : SocialLink) :
    textContents (renderSocialLink l) = [l.NAME] := rfl

/-! ## Claims -/

/-- C1: the constants module defines `HOME` twice; evaluating the module
body top to bottom, the second definition overwrites the first, so after
module evaluation `HOME` equals
`{TITLE := "Home", DESCRIPTION := "Astro Micro is an accessible theme for Astro."}`. -/
theorem home_defined_twice_second_definition_wins :
    (constsModuleDefs.countP fun kv => kv.1 == ConstKey.home) = 2
      ∧ evalModule constsModuleDefs ConstKey.home = some HOME_second
      ∧ HOME = HOME_second
      ∧ HOME_second =
          { TITLE := "Home"
            DESCRIPTION := "Astro Micro is an accessible theme for Astro." } :=
  ⟨by decide, rfl, rfl, rfl⟩

/-- C2: a malformed social-link entry — one missing a required display
field such as `href` — makes construction of the social-link configuration
fail, so the system refuses to start instead of rendering a broken link. -/
theorem malformed_social_entry_rejects_config (raws : List RawSocialEntry)
    (r : RawSocialEntry) (hmem : r ∈ raws) (hbad : r.wellFormed = false) :
    mkSocials raws = none := by
  induction raws with
  | nil => cases hmem
  | cons a rest ih =>
    rcases List.mem_cons.mp hmem with h | h
    · subst h
      have hnone : mkSocialLink r = none := by
        obtain ⟨nm, hr, ic, en⟩ := r
        cases nm <;> cases hr <;> cases ic <;> cases en <;>
          simp_all [RawSocialEntry.wellFormed, mkSocialLink]
      simp [mkSocials, hnone]
    · have hrest : mkSocials rest = none := ih h
      cases hfirst : mkSocialLink a <;> simp [mkSocials, hfirst, hrest]

/-- Witness for C2: the configured GitHub entry with its `href` removed is
rejected, failing construction of the whole list. -/
theorem malformed_social_entry_rejects_config_witness :
    badSocialEntry ∈ [badSocialEntry]
      ∧ badSocialEntry.wellFormed = false
      ∧ mkSocials [badSocialEntry] = none :=
  ⟨List.mem_singleton.mpr rfl, by decide,
    malformed_social_entry_rejects_config [badSocialEntry] badSocialEntry
      (List.mem_singleton.mpr rfl) (by decide)⟩

/-- C3: no step of the program — stylesheet import, `config.autoAddCss`
assignment, icon render, Header render — mutates any configuration entity:
after any run of steps from any state, `SITE`, the per-page `Metadata`
objects and `SOCIALS` are exactly as constructed. -/
theorem config_entities_never_mutated (s : ProgState) (steps : List Step) :
    (run s steps).consts.site = s.consts.site
      ∧ (run s steps).consts.home = s.consts.home
      ∧ (run s steps).consts.blog = s.consts.blog
      ∧ (run s steps).consts.projects = s.consts.projects
      ∧ (run s steps).consts.socials = s.consts.socials := by
  rw [run_consts steps s]
  exact ⟨rfl, rfl, rfl, rfl, rfl⟩

/-- C4: the adapter's init leaves `config.autoAddCss` false; in the header
build's step sequence the `config.autoAddCss = false` step appears strictly
before the icon render call; and at every icon render call of the sequence
the init step has already run and the flag is already false. -/
theorem autoAddCss_false_before_first_icon_render :
    (run startState fontAwesomeResizeSteps).iconConfig.autoAddCss = false
      ∧ headerBuildSteps.indexOf Step.disableAutoAddCss
          < headerBuildSteps.indexOf (Step.renderIconCall IconRef.faMagnifyingGlass)
      ∧ (∀ j : Fin headerBuildSteps.length,
          (headerBuildSteps.get j).isRenderIcon = true →
            Step.disableAutoAddCss ∈ headerBuildSteps.take j.1
              ∧ (run startState (headerBuildSteps.take j.1)).iconConfig.autoAddCss
                  = false) := by
  refine ⟨rfl, by decide, ?_⟩
  decide

/-- Witness for C4: the icon render call sits at position 3 of the header
build sequence, after the init step, with the flag already false there. -/
theorem autoAddCss_false_before_first_icon_render_witness :
    (headerBuildSteps.get ⟨3, by decide⟩).isRenderIcon = true
      ∧ Step.disableAutoAddCss ∈ headerBuildSteps.take 3
      ∧ (run startState (headerBuildSteps.take 3)).iconConfig.autoAddCss = false :=
  ⟨by decide,
    (autoAddCss_false_before_first_icon_render.2.2 ⟨3, by decide⟩ (by decide)).1,
    (autoAddCss_false_before_first_icon_render.2.2 ⟨3, by decide⟩ (by decide)).2⟩

/-- C5: rendering the social-link list preserves authored order — for every
list the anchors' targets and the displayed names come out in list order —
and for the configured two-entry list the rendered sequence is
[GitHub, LinkedIn]. -/
theorem socials_rendered_in_authored_order :
    (∀ links : List SocialLink,
        anchorHrefs (renderSocials links) = links.map SocialLink.HREF
          ∧ textContents (renderSocials links) = links.map SocialLink.NAME)
      ∧ textContents (renderSocials SOCIALS) = ["GitHub", "LinkedIn"]
      ∧ anchorHrefs (renderSocials SOCIALS)
          = ["https://github.com/simeonat", "https://www.linkedin.com/in/simeon-tran/"] := by
  have hgen : ∀ links : List SocialLink,
      anchorHrefs (renderSocials links) = links.map SocialLink.HREF
        ∧ textContents (renderSocials links) = links.map SocialLink.NAME := by
    intro links
    induction links with
    | nil => exact ⟨rfl, rfl⟩
    | cons l ls ih =>
      have hsplit : renderSocials (l :: ls) = renderSocialLink l ++ renderSocials ls := rfl
      constructor
      · rw [hsplit, anchorHrefs_append, anchorHrefs_renderSocialLink, ih.1]
        rfl
      · rw [hsplit, textContents_append, textContents_renderSocialLink, ih.2]
        rfl
  exact ⟨hgen, by rw [(hgen SOCIALS).2]; rfl, by rw [(hgen SOCIALS).1]; rfl⟩

/-- C6: for any configuration, the Header's rendered markup contains the
search trigger button (`id="magnifying-glass"`) exposing the non-visual
label `aria-label="Search"`. -/
theorem header_search_button_has_aria_label (cfg : SiteConfig) :
    hasSearchButton (renderHeader cfg) = true := rfl

/-- C7: with the configured site title "Simeon Tran" and description
"Computer Science Graduate Student", the rendered Header contains the
literal text "Simeon Tran" and a link targeting the site root `/`. -/
theorem header_contains_title_and_root_link :
    SITE.TITLE = "Simeon Tran"
      ∧ SITE.DESCRIPTION = "Computer Science Graduate Student"
      ∧ "Simeon Tran" ∈ textContents (renderHeader siteConfig)
      ∧ hasLinkTo (renderHeader siteConfig) "/" = true := by
  refine ⟨rfl, rfl, ?_, rfl⟩
  have : textContents (renderHeader siteConfig)
      = ["Simeon Tran", "CV", "/", "Blog", "/", "Search"] := rfl
  rw [this]
  exact List.mem_cons_self _ _

/-- C8: the configured social-link list has exactly two entries, GitHub
then LinkedIn; GitHub's group-terminator flag is false, LinkedIn's is
true, so exactly one entry of the group carries the flag. -/
theorem socials_exactly_one_group_terminator :
    (SOCIALS.map fun l => (l.NAME, l.«end»)) = [("GitHub", false), ("LinkedIn", true)]
      ∧ SOCIALS.length = 2
      ∧ (SOCIALS.filter fun l => l.«end»).length = 1 := by
  decide

/-- C9: rendering the Header from any two program states holding the same
configuration appends byte-identical markup to the output: the render is a
deterministic, pure function of the configuration. -/
theorem header_render_deterministic (s₁ s₂ : ProgState)
    (h : s₁.consts = s₂.consts) :
    nodesToHtml ((stepRun s₁ Step.renderHeaderCall).output.drop s₁.output.length)
      = nodesToHtml ((stepRun s₂ Step.renderHeaderCall).output.drop s₂.output.length) := by
  show nodesToHtml ((s₁.output ++ renderHeader s₁.consts).drop s₁.output.length)
      = nodesToHtml ((s₂.output ++ renderHeader s₂.consts).drop s₂.output.length)
  rw [List.drop_left, List.drop_left, h]

/-- Witness for C9: rendering at process start and rendering after the
adapter's init steps produce the same bytes. -/
theorem header_render_deterministic_witness :
    nodesToHtml ((stepRun startState Step.renderHeaderCall).output.drop
        startState.output.length)
      = nodesToHtml ((stepRun (run startState fontAwesomeResizeSteps)
            Step.renderHeaderCall).output.drop
          (run startState fontAwesomeResizeSteps).output.length) :=
  header_render_deterministic startState (run startState fontAwesomeResizeSteps) rfl

/-- C10: the Header's rendered markup is independent of the social-link
list: for any two values of the `SOCIALS` component of the configuration,
the Header renders identical markup. -/
theorem header_output_independent_of_socials (cfg : SiteConfig)
    (socials₁ socials₂ : List SocialLink) :
    renderHeader { cfg with socials := socials₁ }
      = renderHeader { cfg with socials := socials₂ } := rfl
